import Mathlib

/-!
Verification of the model-router plugin core
(`src/classifiers.ts`, `src/router.ts`, `src/scorer.ts`, `src/types.ts`).

Scores are modelled as rationals (`ℚ`); the sigmoid confidence uses `ℝ`
because it involves `exp`.  The JavaScript regular-expression engine is an
external builtin and is modelled as an oracle (`RegexEngine`) whose `test`
may fail, mirroring the fact that `new RegExp(pattern, 'i')` throws on a
malformed pattern; all other code is translated directly.
-/

namespace ModelRouterPlugin

/-- The six complexity tiers (`ComplexityLevel` union type in `types.ts`). -/
inductive ComplexityLevel where
  | SIMPLE | CODING | CREATIVE | REASONING | COMPLEX | PREMIUM
deriving DecidableEq, Repr

/-- One configured scoring dimension (`Dimension` in `types.ts`).
The optional `description` field is not used by the code and is omitted. -/
structure Dimension where
  name : String
  weight : ℚ
  max : ℚ
  patterns : List String
deriving Repr

/-- `DimensionsConfig` from `types.ts` (version/description strings dropped:
the code only reads `dimensions`). -/
structure DimensionsConfig where
  dimensions : List Dimension
deriving Repr

/-- One tier's model table entry (`TierConfig` in `types.ts`);
`free`/`fullFree` are nullable. -/
structure TierConfig where
  description : String
  free : Option String
  paid : String
  fullFree : Option String
  fullPaid : String
deriving Repr

/-- The threshold table of `TiersConfig` in `types.ts`.  `MULTISTEP_TRIGGER`
is modelled as optional: the router guards it with `|| 0.10`, which exists
precisely because the loaded configuration may omit the field (in JavaScript
an absent field reads as `undefined`). -/
structure Thresholds where
  SIMPLE_MAX : ℚ
  COMPLEX_MIN : ℚ
  PREMIUM_MIN : ℚ
  REASONING_TRIGGER : ℚ
  CODING_TRIGGER : ℚ
  CREATIVE_TRIGGER : ℚ
  MULTISTEP_TRIGGER : Option ℚ
deriving Repr

/-- `TiersConfig` from `types.ts`.  The code indexes `tiers` with each of the
six `ComplexityLevel` names and treats a missing tier as a fatal load-time
configuration error, so a well-formed loaded table is a total map on
`ComplexityLevel`. -/
structure TiersConfig where
  tiers : ComplexityLevel → TierConfig
  thresholds : Thresholds

/-- A request (`MessageContext` in `types.ts`); only the fields the core
reads are kept. -/
structure MessageContext where
  id : String
  text : String
  channel : String
deriving Repr

/-- Oracle for the JavaScript builtin `new RegExp(pattern, 'i').test(text)`:
`test pattern text` returns `Except.error ()` exactly when constructing the
(case-insensitive) regular expression from `pattern` throws. -/
structure RegexEngine where
  test : String → String → Except Unit Bool

/-- The body of the filter callback in `scoreDimension`: the `try`/`catch`
that turns a throwing pattern into a non-match. -/
def testPattern (e : RegexEngine) (pattern text : String) : Bool :=
  match e.test pattern text with
  | .ok b => b
  | .error _ => false

/-- An engine that never fails, agreeing with `e` wherever `e` succeeds and
reporting a non-match where `e` throws: the behaviour `scoreDimension`'s
`catch` imposes. -/
def recoverEngine (e : RegexEngine) : RegexEngine :=
  ⟨fun pattern text => Except.ok (testPattern e pattern text)⟩

/-- `MessageClassifier.scoreDimension` (`classifiers.ts` lines 21–34):
count the patterns matching the text (a throwing pattern counts as a
non-match), cap the count at `dimension.max || 3`, multiply by the weight;
an empty pattern list short-circuits to 0. -/
def scoreDimension (e : RegexEngine) (text : String) (dimension : Dimension) : ℚ :=
  if dimension.patterns.isEmpty then 0
  else
    let matchCount : ℕ := (dimension.patterns.filter (fun p => testPattern e p text)).length
    let capped : ℚ := min (matchCount : ℚ) (if dimension.max = 0 then 3 else dimension.max)
    capped * dimension.weight

/-- Modelled from the spec: `src/constants.ts` is not among the provided
sources; `LENGTH_THRESHOLDS` is recorded verbatim in `TESTING.md`
(TINY 50, SHORT 150, MEDIUM 500, LONG 1500). -/
def LENGTH_THRESHOLDS_TINY : ℕ := 50
def LENGTH_THRESHOLDS_SHORT : ℕ := 150
def LENGTH_THRESHOLDS_MEDIUM : ℕ := 500
def LENGTH_THRESHOLDS_LONG : ℕ := 1500

/-- Modelled from the spec: the `LENGTH_SCORES` band multipliers of the
missing `src/constants.ts` (TINY 0, SHORT 0.3, MEDIUM 0.6, LONG 1.0,
VERY_LONG 1.5). -/
def LENGTH_SCORES_TINY : ℚ := 0
def LENGTH_SCORES_SHORT : ℚ := 3/10
def LENGTH_SCORES_MEDIUM : ℚ := 6/10
def LENGTH_SCORES_LONG : ℚ := 1
def LENGTH_SCORES_VERY_LONG : ℚ := 3/2

/-- `MessageClassifier.scoreLength` (`classifiers.ts` lines 36–44). -/
def scoreLength (text : String) (weight : ℚ) : ℚ :=
  let length := text.length
  if length < LENGTH_THRESHOLDS_TINY then LENGTH_SCORES_TINY
  else if length < LENGTH_THRESHOLDS_SHORT then weight * LENGTH_SCORES_SHORT
  else if length < LENGTH_THRESHOLDS_MEDIUM then weight * LENGTH_SCORES_MEDIUM
  else if length < LENGTH_THRESHOLDS_LONG then weight * LENGTH_SCORES_LONG
  else weight * LENGTH_SCORES_VERY_LONG

/-- JavaScript object assignment `scores[name] = v` on an object represented
as its insertion-ordered entry list: overwrite in place if the key exists,
append otherwise. -/
def setKey : List (String × ℚ) → String → ℚ → List (String × ℚ)
  | [], k, v => [(k, v)]
  | (k', v') :: rest, k, v =>
      if k' = k then (k, v) :: rest else (k', v') :: setKey rest k v

/-- `ModelRouter.calculateDimensionScores` (`router.ts` lines 72–79): one
entry per configured dimension, the reserved name `length` scored by
`scoreLength`, every other dimension by `scoreDimension`. -/
def calculateDimensionScores (e : RegexEngine) (dims : DimensionsConfig)
    (text : String) : List (String × ℚ) :=
  dims.dimensions.foldl
    (fun scores dimension =>
      setKey scores dimension.name
        (if dimension.name = "length" then scoreLength text dimension.weight
         else scoreDimension e text dimension))
    []

/-- `ModelRouter.sumScores` (`router.ts` lines 81–83): sum of
`Object.values(scores)`. -/
def sumScores (scores : List (String × ℚ)) : ℚ :=
  (scores.map Prod.snd).foldl (fun sum score => sum + score) 0

/-- A JavaScript comparison `scores.name >= t`: an absent key reads as
`undefined` and every comparison with `undefined` is false. -/
def optGe (o : Option ℚ) (t : ℚ) : Bool :=
  match o with
  | some v => decide (t ≤ v)
  | none => false

/-- The guarded multistep threshold `thresholds.MULTISTEP_TRIGGER || 0.10`
(`router.ts` line 91): both an absent field and the falsy value 0 fall back
to 0.10. -/
def multistepTrigger (t : Thresholds) : ℚ :=
  match t.MULTISTEP_TRIGGER with
  | some v => if v = 0 then 1/10 else v
  | none => 1/10

/-- `ModelRouter.determineComplexityTier` (`router.ts` lines 85–98): the
first-match-wins priority cascade. -/
def determineComplexityTier (tiers : TiersConfig) (scores : List (String × ℚ))
    (totalScore : ℚ) : ComplexityLevel :=
  let t := tiers.thresholds
  if optGe (scores.lookup "reasoning") t.REASONING_TRIGGER then .REASONING
  else if optGe (scores.lookup "code") t.CODING_TRIGGER then .CODING
  else if optGe (scores.lookup "creative") t.CREATIVE_TRIGGER then .CREATIVE
  else if optGe (scores.lookup "multistep") (multistepTrigger t) then .COMPLEX
  else if optGe (scores.lookup "simple") (1/10) && decide (totalScore < 3/10) then .SIMPLE
  else if totalScore < t.SIMPLE_MAX then .SIMPLE
  else if t.PREMIUM_MIN ≤ totalScore then .PREMIUM
  else if t.COMPLEX_MIN ≤ totalScore then .COMPLEX
  else .COMPLEX

/-- JavaScript truthiness of the nullable `tierConfig.free` field: `null`
and the empty string are falsy. -/
def freeTruthy (c : TierConfig) : Bool :=
  match c.free with
  | some s => !s.isEmpty
  | none => false

/-- The model-selection part of a routing result (the record built by
`ModelRouter.selectModel`).  `fullModel` is an `Option` because the source
reads `tierConfig.fullFree!`, a compile-time-only non-null assertion through
which a `null` in the loaded table would flow unchanged. -/
structure Selection where
  tier : ComplexityLevel
  model : String
  fullModel : Option String
  fallback : Option String
  fullFallback : Option String
  description : String
deriving Repr

/-- `ModelRouter.selectModel` (`router.ts` lines 100–112): free-first
selection with the paid model as fallback, otherwise the paid model with no
fallback. -/
def selectModel (tiers : TiersConfig) (tier : ComplexityLevel)
    (preferFree : Bool) : Selection :=
  let tierConfig := tiers.tiers tier
  let useFree := preferFree && freeTruthy tierConfig
  { tier := tier
    model := if useFree then tierConfig.free.getD "" else tierConfig.paid
    fullModel := if useFree then tierConfig.fullFree else some tierConfig.fullPaid
    fallback := if useFree then some tierConfig.paid else none
    fullFallback := if useFree then some tierConfig.fullPaid else none
    description := tierConfig.description }

/-- Modelled from the spec: `SIGMOID_PARAMS` of the missing
`src/constants.ts`, recorded verbatim in `TESTING.md` (K 10, MIDPOINT 0.3)
and matching the defaults hard-coded in the earlier `sigmoid` helper of
`router.ts`. -/
noncomputable def SIGMOID_K : ℝ := 10

/-- Modelled from the spec: see `SIGMOID_K`. -/
noncomputable def SIGMOID_MIDPOINT : ℝ := 3/10

/-- The `sigmoid` helper of `router.ts` (lines 305–307). -/
noncomputable def sigmoid (x k midpoint : ℝ) : ℝ :=
  1 / (1 + Real.exp (-k * (x - midpoint)))

/-- `ModelRouter.calculateConfidence` (`router.ts` lines 114–117). -/
noncomputable def calculateConfidence (totalScore : ℚ) : ℝ :=
  sigmoid (totalScore : ℝ) SIGMOID_K SIGMOID_MIDPOINT

/-- `RoutingResult` from `types.ts`, without the wall-clock
`executionTimeMs` field (real time is outside the model). -/
structure RoutingResult where
  tier : ComplexityLevel
  model : String
  fullModel : Option String
  fallback : Option String
  fullFallback : Option String
  confidence : ℝ
  totalScore : ℚ
  scores : List (String × ℚ)
  description : String

/-- `ModelRouter.route` (`router.ts` lines 26–40): score the dimensions,
sum them, resolve the tier, select the model pair, attach the sigmoid
confidence. -/
noncomputable def route (e : RegexEngine) (dims : DimensionsConfig)
    (tiers : TiersConfig) (message : MessageContext) (preferFree : Bool) :
    RoutingResult :=
  let dimensionScores := calculateDimensionScores e dims message.text
  let totalScore := sumScores dimensionScores
  let tier := determineComplexityTier tiers dimensionScores totalScore
  let selection := selectModel tiers tier preferFree
  { tier := selection.tier
    model := selection.model
    fullModel := selection.fullModel
    fallback := selection.fallback
    fullFallback := selection.fullFallback
    confidence := calculateConfidence totalScore
    totalScore := totalScore
    scores := dimensionScores
    description := selection.description }

/-- Helper for `includes`: does `sub` occur at some position of `l`? -/
def hasSubList (sub : List Char) : List Char → Bool
  | [] => sub.isEmpty
  | c :: rest => sub.isPrefixOf (c :: rest) || hasSubList sub rest

/-- The JavaScript builtin `s.includes(sub)`: substring containment. -/
def includes (s sub : String) : Bool :=
  hasSubList sub.toList s.toList

/-- ASCII lowering of one character, the effect of the JavaScript
`toLowerCase` builtin on the ASCII model identifiers the scorer compares. -/
def lowerChar (c : Char) : Char :=
  if 'A' ≤ c ∧ c ≤ 'Z' then Char.ofNat (c.toNat + 32) else c

/-- The JavaScript builtin `s.toLowerCase()` restricted to ASCII. -/
def lowerString (s : String) : String :=
  String.mk (s.toList.map lowerChar)

/-- A JavaScript comparison `scores.name > 0`: an absent key reads as
`undefined`, and `undefined > 0` is false. -/
def optGtZero (o : Option ℚ) : Bool :=
  match o with
  | some v => decide (0 < v)
  | none => false

/-- A JavaScript strict equality `scores.name === 0`: false for an absent
key (`undefined === 0` is false). -/
def optEqZero (o : Option ℚ) : Bool :=
  match o with
  | some v => decide (v = 0)
  | none => false

/-- `ModelScorer.isFreeModel` (`scorer.ts` lines 306–308). -/
def isFreeModel (model : String) : Bool :=
  includes model ":free" || includes (lowerString model) "free"

/-- `ModelScorer.getContextWindow` (`scorer.ts` lines 310–317). -/
def getContextWindow (model : String) : ℚ :=
  if includes model "claude" then 200000
  else if includes model "gpt-4" then 128000
  else if includes model "llama" then 128000
  else if includes model "qwen" then 32000
  else 8000

/-- The `'fast' | 'medium' | 'slow'` union returned by `getModelSpeed`. -/
inductive Speed where
  | fast | medium | slow
deriving DecidableEq, Repr

/-- `ModelScorer.getModelSpeed` (`scorer.ts` lines 319–323). -/
def getModelSpeed (model : String) : Speed :=
  if includes model "haiku" || includes model "qwen3-80b" then .fast
  else if includes model "thinking" || includes model "r1" then .slow
  else .medium

/-- `ModelScorer.getModelQuality` (`scorer.ts` lines 325–333). -/
def getModelQuality (model : String) : ℚ :=
  if includes model "opus" then 95/100
  else if includes model "sonnet" then 90/100
  else if includes model "gpt-4" then 90/100
  else if includes model "claude" then 85/100
  else if includes model "llama-3.3" then 75/100
  else if includes model "qwen" then 70/100
  else 60/100

/-- The complexity multiplier inside `ModelScorer.scoreCost`
(`scorer.ts` lines 89–98). -/
def complexityMultiplier (totalScore : ℚ) : ℚ :=
  if totalScore < 15/100 then 1
  else if totalScore < 35/100 then 8/10
  else if totalScore < 55/100 then 5/10
  else 0

/-- `ModelScorer.scoreCost` (`scorer.ts` lines 85–101). -/
def scoreCost (model : String) (totalScore : ℚ) : ℚ :=
  if isFreeModel model then complexityMultiplier totalScore
  else (1 - complexityMultiplier totalScore) * (5/10)

/-- `ModelScorer.scoreSuitability` (`scorer.ts` lines 106–130): specialist
substring heuristics checked on the lower-cased identifier, then
general-purpose families, then the default. -/
def scoreSuitability (model : String) (dimensionScores : List (String × ℚ)) : ℚ :=
  let modelName := lowerString model
  if includes modelName "coder" || includes modelName "code" then
    if optGtZero (dimensionScores.lookup "code") then 1 else 5/10
  else if includes modelName "r1" || includes modelName "chimera" ||
          includes modelName "think" then
    if optGtZero (dimensionScores.lookup "reasoning") then 1 else 5/10
  else if includes modelName "trinity" then
    if optGtZero (dimensionScores.lookup "creative") then 1 else 5/10
  else if includes modelName "claude" || includes modelName "gpt" ||
          includes modelName "llama" then 7/10
  else 5/10

/-- `ModelScorer.scoreContext` (`scorer.ts` lines 135–146): estimated
tokens are `Math.ceil(text.length / 4)`. -/
def scoreContext (model : String) (message : MessageContext) : ℚ :=
  let estimatedTokens : ℚ := ((message.text.length + 3) / 4 : ℕ)
  let modelContext := getContextWindow model
  if modelContext * (8/10) < estimatedTokens then 0
  else if modelContext * (5/10) < estimatedTokens then 5/10
  else 1

/-- `ModelScorer.scoreSpeed` (`scorer.ts` lines 151–161). -/
def scoreSpeed (model : String) (totalScore : ℚ) : ℚ :=
  if totalScore < 15/100 then
    if getModelSpeed model = .fast then 1 else 5/10
  else 7/10

/-- `ModelScorer.scoreQuality` (`scorer.ts` lines 166–176). -/
def scoreQuality (model : String) (totalScore : ℚ) : ℚ :=
  let quality := getModelQuality model
  if 55/100 ≤ totalScore then
    if 9/10 ≤ quality then 1 else 3/10
  else
    if 6/10 ≤ quality then 1 else 7/10

/-- `ModelScorer.scoreReliability` (`scorer.ts` lines 181–193). -/
def scoreReliability (model : String) : ℚ :=
  if isFreeModel model then 7/10
  else if includes model "claude" || includes model "gpt-4" then 1
  else 8/10

/-- The test `/[^\x00-\x7F]/.test(text)`: does the text contain a character
outside the ASCII range? -/
def hasNonAscii (text : String) : Bool :=
  text.toList.any (fun c => 127 < c.toNat)

/-- `ModelScorer.scoreMultilingual` (`scorer.ts` lines 198–211). -/
def scoreMultilingual (model : String) (message : MessageContext) : ℚ :=
  if !hasNonAscii message.text then 1
  else if includes model "qwen" || includes model "llama" then 1
  else 7/10

/-- `ModelScorer.scoreCodeGen` (`scorer.ts` lines 216–230). -/
def scoreCodeGen (model : String) (dimensionScores : List (String × ℚ)) : ℚ :=
  if optEqZero (dimensionScores.lookup "code") then 5/10
  else if includes model "coder" || includes model "code" then 1
  else if includes model "claude" || includes model "gpt" then 8/10
  else 5/10

/-- `ModelScorer.scoreReasoning` (`scorer.ts` lines 235–249). -/
def scoreReasoning (model : String) (dimensionScores : List (String × ℚ)) : ℚ :=
  if optEqZero (dimensionScores.lookup "reasoning") then 5/10
  else if includes model "r1" || includes model "chimera" ||
          includes model "think" then 1
  else if includes model "opus" then 9/10
  else 6/10

/-- `ModelScorer.scoreCreativity` (`scorer.ts` lines 254–264). -/
def scoreCreativity (model : String) (dimensionScores : List (String × ℚ)) : ℚ :=
  if optEqZero (dimensionScores.lookup "creative") then 5/10
  else if includes model "trinity" || includes model "claude" then 1
  else 7/10

/-- `ModelScorer.scoreSafety` (`scorer.ts` lines 269–272): a constant
placeholder. -/
def scoreSafety (_model : String) : ℚ := 1

/-- `ModelScorer.scoreLatency` (`scorer.ts` lines 277–280). -/
def scoreLatency (model : String) (_message : MessageContext) : ℚ :=
  if getModelSpeed model = .fast then 1 else 7/10

/-- `ModelScorer.scoreProviderDiversity` (`scorer.ts` lines 285–291). -/
def scoreProviderDiversity (model : String) : ℚ :=
  if includes model "openrouter" then 1 else 7/10

/-- `ModelScorer.scoreExperimental` (`scorer.ts` lines 296–302). -/
def scoreExperimental (model : String) : ℚ :=
  if includes model "thinking" || includes model "preview" then 1 else 5/10

/-- The weight table of `ModelScorer.calculateScore`
(`scorer.ts` lines 18–33). -/
def weightCostEfficiency : ℚ := 25/100
def weightTaskSuitability : ℚ := 20/100
def weightContextWindow : ℚ := 15/100
def weightSpeed : ℚ := 10/100
def weightQuality : ℚ := 10/100
def weightReliability : ℚ := 5/100
def weightMultilingual : ℚ := 5/100
def weightCodeGeneration : ℚ := 3/100
def weightReasoningDepth : ℚ := 3/100
def weightCreativity : ℚ := 2/100
def weightSafety : ℚ := 1/100
def weightLatencyTolerance : ℚ := 5/1000
def weightProviderDiversity : ℚ := 25/10000
def weightExperimentalFeatures : ℚ := 25/10000

/-- `ModelScorer.calculateScore` (`scorer.ts` lines 11–80): the weighted
sum of the 14 sub-scores. -/
def calculateScore (model : String) (dimensionScores : List (String × ℚ))
    (totalScore : ℚ) (message : MessageContext) : ℚ :=
  scoreCost model totalScore * weightCostEfficiency +
  scoreSuitability model dimensionScores * weightTaskSuitability +
  scoreContext model message * weightContextWindow +
  scoreSpeed model totalScore * weightSpeed +
  scoreQuality model totalScore * weightQuality +
  scoreReliability model * weightReliability +
  scoreMultilingual model message * weightMultilingual +
  scoreCodeGen model dimensionScores * weightCodeGeneration +
  scoreReasoning model dimensionScores * weightReasoningDepth +
  scoreCreativity model dimensionScores * weightCreativity +
  scoreSafety model * weightSafety +
  scoreLatency model message * weightLatencyTolerance +
  scoreProviderDiversity model * weightProviderDiversity +
  scoreExperimental model * weightExperimentalFeatures

/-! ### Claim-side reference definitions -/

/-- The tier cascade exactly as the specification words it: the rules in
the stated order, first match wins, with `MULTISTEP_TRIGGER` read directly
and defaulting to 0.10 only when the field is unset. -/
def claimCascade (tiers : TiersConfig) (scores : List (String × ℚ))
    (totalScore : ℚ) : ComplexityLevel :=
  let t := tiers.thresholds
  if optGe (scores.lookup "reasoning") t.REASONING_TRIGGER then .REASONING
  else if optGe (scores.lookup "code") t.CODING_TRIGGER then .CODING
  else if optGe (scores.lookup "creative") t.CREATIVE_TRIGGER then .CREATIVE
  else if optGe (scores.lookup "multistep") (t.MULTISTEP_TRIGGER.getD (1/10)) then .COMPLEX
  else if optGe (scores.lookup "simple") (1/10) && decide (totalScore < 3/10) then .SIMPLE
  else if totalScore < t.SIMPLE_MAX then .SIMPLE
  else if t.PREMIUM_MIN ≤ totalScore then .PREMIUM
  else if t.COMPLEX_MIN ≤ totalScore then .COMPLEX
  else .COMPLEX

/-- The task-suitability sub-score exactly as the specification enumerates
it: specialist substring heuristics on the lower-cased identifier (1.0 on a
hit, 0.5 on a miss), then the 0.7 general-purpose families, then the 0.5
default. -/
def claimSuitability (model : String) (dimensionScores : List (String × ℚ)) : ℚ :=
  let id := lowerString model
  if includes id "coder" || includes id "code" then
    if optGtZero (dimensionScores.lookup "code") then 1 else 1/2
  else if includes id "r1" || includes id "chimera" || includes id "think" then
    if optGtZero (dimensionScores.lookup "reasoning") then 1 else 1/2
  else if includes id "trinity" then
    if optGtZero (dimensionScores.lookup "creative") then 1 else 1/2
  else if includes id "claude" || includes id "gpt" || includes id "llama" then 7/10
  else 1/2

/-! ### Helper lemmas -/

lemma testPattern_recoverEngine (e : RegexEngine) (pattern text : String) :
    testPattern (recoverEngine e) pattern text = testPattern e pattern text := rfl

lemma length_filter_mono {α : Type} (l : List α) (p q : α → Bool)
    (h : ∀ a ∈ l, p a = true → q a = true) :
    (l.filter p).length ≤ (l.filter q).length := by
  induction l with
  | nil => simp
  | cons a t ih =>
      have ht : (t.filter p).length ≤ (t.filter q).length :=
        ih (fun x hx => h x (List.mem_cons_of_mem a hx))
      by_cases hp : p a = true
      · have hq : q a = true := h a (List.mem_cons_self a t) hp
        rw [List.filter_cons, List.filter_cons, if_pos hp, if_pos hq,
          List.length_cons, List.length_cons]
        omega
      · rw [List.filter_cons, List.filter_cons, if_neg hp]
        by_cases hq : q a = true
        · rw [if_pos hq, List.length_cons]
          omega
        · rw [if_neg hq]
          exact ht

lemma foldl_add_shift (l : List ℚ) (a : ℚ) :
    l.foldl (fun sum score => sum + score) a =
      a + l.foldl (fun sum score => sum + score) 0 := by
  induction l generalizing a with
  | nil => simp
  | cons x t ih =>
      simp only [List.foldl_cons]
      rw [ih (a + x), ih (0 + x)]
      ring

lemma sumScores_append_cons (pre post : List (String × ℚ)) (name : String) (x : ℚ) :
    sumScores (pre ++ (name, x) :: post) = sumScores pre + x + sumScores post := by
  simp only [sumScores, List.map_append, List.map_cons, List.foldl_append,
    List.foldl_cons]
  rw [foldl_add_shift _ (List.foldl (fun sum score => sum + score) 0 (pre.map Prod.snd) + x)]

lemma sigmoid_mem_unit (x k midpoint : ℝ) :
    0 ≤ sigmoid x k midpoint ∧ sigmoid x k midpoint ≤ 1 := by
  have hexp : 0 < Real.exp (-k * (x - midpoint)) := Real.exp_pos _
  have hden : 0 < 1 + Real.exp (-k * (x - midpoint)) := by linarith
  constructor
  · exact div_nonneg (by norm_num) hden.le
  · rw [sigmoid, div_le_one hden]
    linarith

/-! ### Claims -/

/-- C1: tier resolution evaluates its rules in the fixed first-match-wins
order stated by the specification (with `MULTISTEP_TRIGGER` defaulting to
0.10 when unset), and whenever the reasoning score meets
`REASONING_TRIGGER` the tier is REASONING regardless of the other scores.
The single hypothesis excludes the configured value 0 for
`MULTISTEP_TRIGGER`, which JavaScript truthiness also replaces by 0.10. -/
theorem determineComplexityTier_is_claim_cascade (tiers : TiersConfig)
    (scores : List (String × ℚ)) (totalScore : ℚ)
    (hms : tiers.thresholds.MULTISTEP_TRIGGER ≠ some 0) :
    determineComplexityTier tiers scores totalScore =
      claimCascade tiers scores totalScore ∧
    (optGe (scores.lookup "reasoning") tiers.thresholds.REASONING_TRIGGER = true →
      determineComplexityTier tiers scores totalScore = .REASONING) := by
  have htrig : multistepTrigger tiers.thresholds =
      tiers.thresholds.MULTISTEP_TRIGGER.getD (1/10) := by
    unfold multistepTrigger
    cases hv : tiers.thresholds.MULTISTEP_TRIGGER with
    | none => rfl
    | some v =>
        have : v ≠ 0 := fun h => hms (by rw [hv, h])
        simp [this]
  constructor
  · simp only [determineComplexityTier, claimCascade, htrig]
  · intro h
    simp only [determineComplexityTier, h, if_pos]

/-- C1 witness: a concrete score map whose reasoning score meets the
trigger resolves to REASONING even though the code score is far higher. -/
theorem determineComplexityTier_is_claim_cascade_witness :
    determineComplexityTier
      ⟨fun _ => ⟨"d", some "f", "p", some "ff", "fp"⟩,
        ⟨3/10, 35/100, 55/100, 15/100, 12/100, 1/10, none⟩⟩
      [("reasoning", 2/10), ("code", 9/10)] (11/10) = ComplexityLevel.REASONING :=
  (determineComplexityTier_is_claim_cascade
      ⟨fun _ => ⟨"d", some "f", "p", some "ff", "fp"⟩,
        ⟨3/10, 35/100, 55/100, 15/100, 12/100, 1/10, none⟩⟩
      [("reasoning", 2/10), ("code", 9/10)] (11/10) (by simp)).2
    (by norm_num [optGe, List.lookup])

/-- C2: for every resolved tier and every `preferFree` flag, free-first
selection returns the tier's free model with the paid model as fallback
exactly when `preferFree` is set and the tier has a (truthy) free model;
otherwise it returns the paid model with no fallback. -/
theorem selectModel_tier_table (tiers : TiersConfig) (tier : ComplexityLevel) :
    (∀ s : String, (tiers.tiers tier).free = some s → s ≠ "" →
      (selectModel tiers tier true).model = s ∧
      (selectModel tiers tier true).fallback = some (tiers.tiers tier).paid) ∧
    (freeTruthy (tiers.tiers tier) = false →
      (selectModel tiers tier true).model = (tiers.tiers tier).paid ∧
      (selectModel tiers tier true).fallback = none) ∧
    ((selectModel tiers tier false).model = (tiers.tiers tier).paid ∧
      (selectModel tiers tier false).fallback = none) := by
  refine ⟨?_, ?_, ?_⟩
  · intro s hs hne
    have hie : s.isEmpty = false := by
      cases hcase : s.isEmpty
      · rfl
      · exact absurd ((String.isEmpty_iff s).mp hcase) hne
    have htruthy : freeTruthy (tiers.tiers tier) = true := by
      simp [freeTruthy, hs, hie]
    constructor <;> simp [selectModel, htruthy, hs]
  · intro hfalse
    constructor <;> simp [selectModel, hfalse]
  · constructor <;> simp [selectModel]

/-- Example configuration for concrete witnesses: every tier but PREMIUM
has a free model, PREMIUM has none. -/
def exTiers : TiersConfig :=
  ⟨fun tier =>
    match tier with
    | .PREMIUM => ⟨"premium tier", none, "claude-opus", none, "anthropic/claude-opus"⟩
    | _ => ⟨"general tier", some "qwen3-next", "claude-sonnet",
        some "openrouter/qwen3-next:free", "anthropic/claude-sonnet"⟩,
   ⟨3/10, 35/100, 55/100, 15/100, 12/100, 1/10, none⟩⟩

/-- C2 witness: the free/paid split evaluated on the example table. -/
theorem selectModel_tier_table_witness :
    (selectModel exTiers .CODING true).model = "qwen3-next" ∧
    (selectModel exTiers .CODING true).fallback = some "claude-sonnet" ∧
    (selectModel exTiers .PREMIUM true).model = "claude-opus" ∧
    (selectModel exTiers .PREMIUM true).fallback = none ∧
    (selectModel exTiers .CODING false).model = "claude-sonnet" ∧
    (selectModel exTiers .CODING false).fallback = none := by
  have hc := selectModel_tier_table exTiers .CODING
  have hp := selectModel_tier_table exTiers .PREMIUM
  have h1 := hc.1 "qwen3-next" rfl (by decide)
  have h2 := hp.2.1 (by decide)
  exact ⟨h1.1, h1.2, h2.1, h2.2, hc.2.2.1, hc.2.2.2⟩

/-- C3: under the configured-dimension invariant `max ≥ 1`,
`scoreDimension` is the number of matching patterns (an invalid pattern
counting as a non-match) capped at `max`, times the weight; and a throwing
pattern is absorbed inside the classifier — the score is identical to the
one computed by an engine that never throws. -/
theorem scoreDimension_count_cap_weight (e : RegexEngine) (text : String)
    (dimension : Dimension) (hmax : 1 ≤ dimension.max) :
    scoreDimension e text dimension =
      min (((dimension.patterns.filter
          (fun p => testPattern e p text)).length : ℚ)) dimension.max
        * dimension.weight ∧
    scoreDimension e text dimension =
      scoreDimension (recoverEngine e) text dimension := by
  have hne : dimension.max ≠ 0 := by
    intro h
    rw [h] at hmax
    norm_num at hmax
  constructor
  · by_cases hp : dimension.patterns.isEmpty
    · have hnil : dimension.patterns = [] := by
        simpa [List.isEmpty_iff] using hp
      unfold scoreDimension
      rw [if_pos hp, hnil]
      simp only [List.filter_nil, List.length_nil, Nat.cast_zero]
      rw [min_eq_left (by linarith : (0 : ℚ) ≤ dimension.max), zero_mul]
    · simp [scoreDimension, hp, hne]
  · simp [scoreDimension, testPattern_recoverEngine]

/-- Regex-engine oracle for witnesses: the pattern `"("` throws (it is a
malformed regular expression), every other pattern matches exactly when it
occurs in the text as a substring. -/
def exEngine : RegexEngine :=
  ⟨fun pattern text => if pattern = "(" then .error () else .ok (includes text pattern)⟩

/-- Dimension for the C3 witness: four patterns (one malformed), cap 2,
weight 2. -/
def exDimension : Dimension := ⟨"tech", 2, 2, ["(", "foo", "bar", "baz"]⟩

/-- C3 witness: on `"hello foo bar"` two patterns match, the malformed one
is absorbed, and the score is `min 2 2 * 2 = 4`. -/
theorem scoreDimension_count_cap_weight_witness :
    1 ≤ exDimension.max ∧
    scoreDimension exEngine "hello foo bar" exDimension = 4 ∧
    scoreDimension exEngine "hello foo bar" exDimension =
      scoreDimension (recoverEngine exEngine) "hello foo bar" exDimension := by
  have h := scoreDimension_count_cap_weight exEngine "hello foo bar" exDimension
    (by norm_num [exDimension])
  refine ⟨by norm_num [exDimension], ?_, h.2⟩
  rw [h.1]
  have hlen : (exDimension.patterns.filter
      (fun p => testPattern exEngine p "hello foo bar")).length = 2 := by decide
  rw [hlen]
  norm_num [exDimension]

/-- C4 counterexample: the claim says a text of exactly 1500 characters
scores `1.0 × weight` on the length dimension, but the code's band test is
`length < 1500`, so a 1500-character text falls in the `≥ 1500` band and
scores `1.5 × weight`. -/
theorem scoreLength_at_1500_counterexample :
    scoreLength (String.mk (List.replicate 1500 'x')) 1 = 3/2 ∧
    ¬ scoreLength (String.mk (List.replicate 1500 'x')) 1 = 1 * 1 := by
  have hlen : (String.mk (List.replicate 1500 'x')).length = 1500 := by
    show (List.replicate 1500 'x').length = 1500
    exact List.length_replicate 1500 'x'
  constructor <;>
    norm_num [scoreLength, hlen, LENGTH_THRESHOLDS_TINY, LENGTH_THRESHOLDS_SHORT,
      LENGTH_THRESHOLDS_MEDIUM, LENGTH_THRESHOLDS_LONG, LENGTH_SCORES_VERY_LONG]

/-- C4 (amended): a 49-character text scores 0; exactly 50 characters
scores `0.3 × weight`; exactly 1500 characters falls in the top band and
scores `1.5 × weight`, as does 1501 characters (the `1.0 × weight` band is
`[500, 1500)`). -/
theorem scoreLength_boundary_bands (weight : ℚ) (t49 t50 t1500 t1501 : String)
    (h49 : t49.length = 49) (h50 : t50.length = 50)
    (h1500 : t1500.length = 1500) (h1501 : t1501.length = 1501) :
    scoreLength t49 weight = 0 ∧
    scoreLength t50 weight = weight * (3/10) ∧
    scoreLength t1500 weight = weight * (3/2) ∧
    scoreLength t1501 weight = weight * (3/2) := by
  refine ⟨?_, ?_, ?_, ?_⟩ <;>
    simp [scoreLength, h49, h50, h1500, h1501, LENGTH_THRESHOLDS_TINY,
      LENGTH_THRESHOLDS_SHORT, LENGTH_THRESHOLDS_MEDIUM, LENGTH_THRESHOLDS_LONG,
      LENGTH_SCORES_TINY, LENGTH_SCORES_SHORT, LENGTH_SCORES_MEDIUM,
      LENGTH_SCORES_LONG, LENGTH_SCORES_VERY_LONG]

/-- C4 witness: the four bands evaluated at concrete texts of lengths 49,
50, 1500 and 1501 with weight 2. -/
theorem scoreLength_boundary_bands_witness :
    scoreLength (String.mk (List.replicate 49 'a')) 2 = 0 ∧
    scoreLength (String.mk (List.replicate 50 'a')) 2 = 2 * (3/10) ∧
    scoreLength (String.mk (List.replicate 1500 'a')) 2 = 2 * (3/2) ∧
    scoreLength (String.mk (List.replicate 1501 'a')) 2 = 2 * (3/2) :=
  scoreLength_boundary_bands 2 _ _ _ _
    (by show (List.replicate 49 'a').length = 49; exact List.length_replicate 49 'a')
    (by show (List.replicate 50 'a').length = 50; exact List.length_replicate 50 'a')
    (by show (List.replicate 1500 'a').length = 1500; exact List.length_replicate 1500 'a')
    (by show (List.replicate 1501 'a').length = 1501; exact List.length_replicate 1501 'a')

/-- C5: the confidence in a routing result is the logistic function of the
total score with the fixed constants `k = 10` and `midpoint = 0.3`. -/
theorem route_confidence_is_sigmoid (e : RegexEngine) (dims : DimensionsConfig)
    (tiers : TiersConfig) (message : MessageContext) (preferFree : Bool) :
    (route e dims tiers message preferFree).confidence =
      1 / (1 + Real.exp (-(10 : ℝ) *
        ((sumScores (calculateDimensionScores e dims message.text) : ℝ) - 3/10))) := by
  simp [route, calculateConfidence, sigmoid, SIGMOID_K, SIGMOID_MIDPOINT]

/-- C6: routing is a total function — for every engine, configuration,
request and flag it returns a result whose tier is one of the six
enumerated values and whose confidence lies in [0, 1]. -/
theorem route_total_and_calibrated (e : RegexEngine) (dims : DimensionsConfig)
    (tiers : TiersConfig) (message : MessageContext) (preferFree : Bool) :
    ((route e dims tiers message preferFree).tier = .SIMPLE ∨
     (route e dims tiers message preferFree).tier = .CODING ∨
     (route e dims tiers message preferFree).tier = .CREATIVE ∨
     (route e dims tiers message preferFree).tier = .REASONING ∨
     (route e dims tiers message preferFree).tier = .COMPLEX ∨
     (route e dims tiers message preferFree).tier = .PREMIUM) ∧
    0 ≤ (route e dims tiers message preferFree).confidence ∧
    (route e dims tiers message preferFree).confidence ≤ 1 := by
  have hconf : (route e dims tiers message preferFree).confidence =
      sigmoid ((sumScores (calculateDimensionScores e dims message.text) : ℝ))
        SIGMOID_K SIGMOID_MIDPOINT := by
    simp [route, calculateConfidence]
  refine ⟨?_, ?_, ?_⟩
  · cases h : (route e dims tiers message preferFree).tier <;> tauto
  · rw [hconf]
    exact (sigmoid_mem_unit _ _ _).1
  · rw [hconf]
    exact (sigmoid_mem_unit _ _ _).2

/-- C7: for a dimension with non-negative weight, a text matching a
superset of the patterns matched by another never scores lower, and the
total score with the other entries held fixed never decreases. -/
theorem scoreDimension_and_total_monotone (e : RegexEngine) (dimension : Dimension)
    (t1 t2 : String) (hw : 0 ≤ dimension.weight)
    (h : ∀ p ∈ dimension.patterns,
      testPattern e p t1 = true → testPattern e p t2 = true) :
    scoreDimension e t1 dimension ≤ scoreDimension e t2 dimension ∧
    ∀ (pre post : List (String × ℚ)) (name : String),
      sumScores (pre ++ (name, scoreDimension e t1 dimension) :: post) ≤
        sumScores (pre ++ (name, scoreDimension e t2 dimension) :: post) := by
  have hmono : scoreDimension e t1 dimension ≤ scoreDimension e t2 dimension := by
    by_cases hp : dimension.patterns.isEmpty
    · simp [scoreDimension, hp]
    · have hlen : ((dimension.patterns.filter
          (fun p => testPattern e p t1)).length : ℚ) ≤
          ((dimension.patterns.filter (fun p => testPattern e p t2)).length : ℚ) := by
        exact_mod_cast length_filter_mono dimension.patterns _ _ h
      simp only [scoreDimension]
      rw [if_neg hp, if_neg hp]
      exact mul_le_mul_of_nonneg_right (min_le_min hlen le_rfl) hw
  refine ⟨hmono, fun pre post name => ?_⟩
  rw [sumScores_append_cons, sumScores_append_cons]
  linarith

/-- C7 witness: `"foo bar"` matches a superset of the patterns that
`"foo"` matches, and both the dimension score and a total with the other
entries fixed do not decrease. -/
theorem scoreDimension_and_total_monotone_witness :
    0 ≤ exDimension.weight ∧
    scoreDimension exEngine "foo" exDimension ≤
      scoreDimension exEngine "foo bar" exDimension ∧
    sumScores [("length", 1/10), ("tech", scoreDimension exEngine "foo" exDimension)] ≤
      sumScores [("length", 1/10), ("tech", scoreDimension exEngine "foo bar" exDimension)] := by
  have h := scoreDimension_and_total_monotone exEngine exDimension "foo" "foo bar"
    (by norm_num [exDimension]) (by decide)
  exact ⟨by norm_num [exDimension], h.1, h.2 [("length", 1/10)] [] "tech"⟩

/-- C8: the task-suitability sub-score is exactly the claimed decision
table — specialist identifier substrings scoring 1.0 on a hit and 0.5 on a
miss, 0.7 for the recognized general-purpose families, 0.5 otherwise. -/
theorem scoreSuitability_matches_claim (model : String)
    (dimensionScores : List (String × ℚ)) :
    scoreSuitability model dimensionScores = claimSuitability model dimensionScores := by
  simp only [scoreSuitability, claimSuitability]
  norm_num

/-! Bounds for the 14 sub-scores, used by the `calculateScore` claim. -/

lemma complexityMultiplier_mem (totalScore : ℚ) :
    0 ≤ complexityMultiplier totalScore ∧ complexityMultiplier totalScore ≤ 1 := by
  unfold complexityMultiplier
  split_ifs <;> norm_num

lemma scoreCost_mem (model : String) (totalScore : ℚ) :
    0 ≤ scoreCost model totalScore ∧ scoreCost model totalScore ≤ 1 := by
  obtain ⟨h0, h1⟩ := complexityMultiplier_mem totalScore
  unfold scoreCost
  split_ifs
  · exact ⟨h0, h1⟩
  · constructor <;> nlinarith

lemma scoreSuitability_mem (model : String) (dimensionScores : List (String × ℚ)) :
    0 ≤ scoreSuitability model dimensionScores ∧
      scoreSuitability model dimensionScores ≤ 1 := by
  simp only [scoreSuitability]
  split_ifs <;> norm_num

lemma scoreContext_mem (model : String) (message : MessageContext) :
    0 ≤ scoreContext model message ∧ scoreContext model message ≤ 1 := by
  simp only [scoreContext]
  split_ifs <;> norm_num

lemma scoreSpeed_mem (model : String) (totalScore : ℚ) :
    0 ≤ scoreSpeed model totalScore ∧ scoreSpeed model totalScore ≤ 1 := by
  simp only [scoreSpeed]
  split_ifs <;> norm_num

lemma scoreQuality_mem (model : String) (totalScore : ℚ) :
    0 ≤ scoreQuality model totalScore ∧ scoreQuality model totalScore ≤ 1 := by
  simp only [scoreQuality]
  split_ifs <;> norm_num

lemma scoreReliability_mem (model : String) :
    0 ≤ scoreReliability model ∧ scoreReliability model ≤ 1 := by
  simp only [scoreReliability]
  split_ifs <;> norm_num

lemma scoreMultilingual_mem (model : String) (message : MessageContext) :
    0 ≤ scoreMultilingual model message ∧ scoreMultilingual model message ≤ 1 := by
  simp only [scoreMultilingual]
  split_ifs <;> norm_num

lemma scoreCodeGen_mem (model : String) (dimensionScores : List (String × ℚ)) :
    0 ≤ scoreCodeGen model dimensionScores ∧
      scoreCodeGen model dimensionScores ≤ 1 := by
  simp only [scoreCodeGen]
  split_ifs <;> norm_num

lemma scoreReasoning_mem (model : String) (dimensionScores : List (String × ℚ)) :
    0 ≤ scoreReasoning model dimensionScores ∧
      scoreReasoning model dimensionScores ≤ 1 := by
  simp only [scoreReasoning]
  split_ifs <;> norm_num

lemma scoreCreativity_mem (model : String) (dimensionScores : List (String × ℚ)) :
    0 ≤ scoreCreativity model dimensionScores ∧
      scoreCreativity model dimensionScores ≤ 1 := by
  simp only [scoreCreativity]
  split_ifs <;> norm_num

lemma scoreSafety_mem (model : String) :
    0 ≤ scoreSafety model ∧ scoreSafety model ≤ 1 := by
  simp only [scoreSafety]
  norm_num

lemma scoreLatency_mem (model : String) (message : MessageContext) :
    0 ≤ scoreLatency model message ∧ scoreLatency model message ≤ 1 := by
  simp only [scoreLatency]
  split_ifs <;> norm_num

lemma scoreProviderDiversity_mem (model : String) :
    0 ≤ scoreProviderDiversity model ∧ scoreProviderDiversity model ≤ 1 := by
  simp only [scoreProviderDiversity]
  split_ifs <;> norm_num

lemma scoreExperimental_mem (model : String) :
    0 ≤ scoreExperimental model ∧ scoreExperimental model ≤ 1 := by
  simp only [scoreExperimental]
  split_ifs <;> norm_num

/-- C9: `calculateScore` is the weighted sum of 14 sub-scores, each in
[0, 1], under fixed weights that sum to 1, so the blended score itself lies
in [0, 1]. -/
theorem calculateScore_weighted_unit_interval (model : String)
    (dimensionScores : List (String × ℚ)) (totalScore : ℚ)
    (message : MessageContext) :
    0 ≤ calculateScore model dimensionScores totalScore message ∧
    calculateScore model dimensionScores totalScore message ≤ 1 ∧
    weightCostEfficiency + weightTaskSuitability + weightContextWindow +
      weightSpeed + weightQuality + weightReliability + weightMultilingual +
      weightCodeGeneration + weightReasoningDepth + weightCreativity +
      weightSafety + weightLatencyTolerance + weightProviderDiversity +
      weightExperimentalFeatures = 1 := by
  obtain ⟨a0, a1⟩ := scoreCost_mem model totalScore
  obtain ⟨b0, b1⟩ := scoreSuitability_mem model dimensionScores
  obtain ⟨c0, c1⟩ := scoreContext_mem model message
  obtain ⟨d0, d1⟩ := scoreSpeed_mem model totalScore
  obtain ⟨e0, e1⟩ := scoreQuality_mem model totalScore
  obtain ⟨f0, f1⟩ := scoreReliability_mem model
  obtain ⟨g0, g1⟩ := scoreMultilingual_mem model message
  obtain ⟨i0, i1⟩ := scoreCodeGen_mem model dimensionScores
  obtain ⟨j0, j1⟩ := scoreReasoning_mem model dimensionScores
  obtain ⟨k0, k1⟩ := scoreCreativity_mem model dimensionScores
  obtain ⟨l0, l1⟩ := scoreSafety_mem model
  obtain ⟨m0, m1⟩ := scoreLatency_mem model message
  obtain ⟨n0, n1⟩ := scoreProviderDiversity_mem model
  obtain ⟨o0, o1⟩ := scoreExperimental_mem model
  unfold calculateScore weightCostEfficiency weightTaskSuitability
    weightContextWindow weightSpeed weightQuality weightReliability
    weightMultilingual weightCodeGeneration weightReasoningDepth
    weightCreativity weightSafety weightLatencyTolerance
    weightProviderDiversity weightExperimentalFeatures
  refine ⟨by linarith, by linarith, by norm_num⟩

/-- C10: when a dimension is configured with `max = 0` (the falsy value),
`scoreDimension` caps the match count at the default 3 rather than at the
configured value, so the dimension can still contribute up to three times
its weight. -/
theorem scoreDimension_zero_max_default_cap (e : RegexEngine) (text : String)
    (dimension : Dimension) (hmax : dimension.max = 0)
    (hw : 0 ≤ dimension.weight) :
    scoreDimension e text dimension =
      min (((dimension.patterns.filter
          (fun p => testPattern e p text)).length : ℚ)) 3 * dimension.weight ∧
    scoreDimension e text dimension ≤ 3 * dimension.weight := by
  have heq : scoreDimension e text dimension =
      min (((dimension.patterns.filter
          (fun p => testPattern e p text)).length : ℚ)) 3 * dimension.weight := by
    by_cases hp : dimension.patterns.isEmpty
    · have hnil : dimension.patterns = [] := by
        simpa [List.isEmpty_iff] using hp
      unfold scoreDimension
      rw [if_pos hp, hnil]
      simp only [List.filter_nil, List.length_nil, Nat.cast_zero]
      rw [min_eq_left (by norm_num : (0 : ℚ) ≤ 3), zero_mul]
    · simp [scoreDimension, hp, hmax]
  refine ⟨heq, ?_⟩
  rw [heq]
  exact mul_le_mul_of_nonneg_right (min_le_right _ _) hw

/-- Dimension for the C10 witness: five patterns, configured cap 0,
weight 2. -/
def exDimensionZero : Dimension := ⟨"tech0", 2, 0, ["(", "foo", "bar", "o f", "baz"]⟩

/-- C10 witness: with `max = 0` three matching patterns all count — the
score is `min 3 3 * 2 = 6`, within the default bound `3 × weight`. -/
theorem scoreDimension_zero_max_default_cap_witness :
    exDimensionZero.max = 0 ∧
    scoreDimension exEngine "hello foo bar" exDimensionZero = 6 ∧
    scoreDimension exEngine "hello foo bar" exDimensionZero ≤ 3 * 2 := by
  have h := scoreDimension_zero_max_default_cap exEngine "hello foo bar"
    exDimensionZero rfl (by norm_num [exDimensionZero])
  refine ⟨rfl, ?_, ?_⟩
  · rw [h.1]
    have hlen : (exDimensionZero.patterns.filter
        (fun p => testPattern exEngine p "hello foo bar")).length = 3 := by decide
    rw [hlen]
    norm_num [exDimensionZero]
  · exact h.2

end ModelRouterPlugin
